import Mathlib

/-!
Verification of the i.MX6UL SoC peripheral-descriptor and bring-up layer
(`soc/nxp/imx6ul/imx6ul.go`).

The file embeds, as Lean definitions:
  * the peripheral register address constants (the `const` block);
  * the peripheral descriptor instances (the `var` block), as records holding
    the fields assigned in this file (driver-internal fields and injected
    function references such as `Clock`/`EnablePLL`/`SetClock` are out of
    scope per the spec);
  * `SiliconVersion`, `UniqueID`, `Model` and `HAB`, with hardware reads made
    explicit: memory-mapped register state is a function from addresses to
    values, the fuse box is an environment mapping (bank, word) to either a
    value or a busy/timeout failure, and OCOTP driver calls append to an
    event trace.

Driver code referenced from this file (the `ocotp`, `snvs` and CCM `ccm.go`
definitions) is not part of the sources under verification; those pieces are
modelled from the specification and marked as such in their doc comments.
-/

/-! ## Peripheral register constants (the `const` block) -/

def CSU_BASE : Nat := 0x021c0000
def DCP_BASE : Nat := 0x02280000
def GIC_BASE : Nat := 0x00a00000
def GPIO1_BASE : Nat := 0x0209c000
def GPIO2_BASE : Nat := 0x020a0000
def GPIO3_BASE : Nat := 0x020a4000
def GPIO4_BASE : Nat := 0x020a8000
def GPIO5_BASE : Nat := 0x020ac000
def I2C1_BASE : Nat := 0x021a0000
def I2C2_BASE : Nat := 0x021a4000
def OCOTP_BASE : Nat := 0x021bc000
def OCOTP_BANK_BASE : Nat := 0x021bc400
def OCRAM_START : Nat := 0x00900000
def OCRAM_SIZE : Nat := 0x20000
def RNGB_BASE : Nat := 0x02284000
def SNVS_BASE : Nat := 0x020cc000
def TZASC_BASE : Nat := 0x021d0000
def TZASC_BYPASS : Nat := 0x020e4024
def IOMUXC_GPR_GPR1 : Nat := 0x020e4004
def GPR1_TZASC1_BOOT_LOCK : Nat := 23
def UART1_BASE : Nat := 0x02020000
def UART2_BASE : Nat := 0x021e8000
def UART3_BASE : Nat := 0x021ec000
def UART4_BASE : Nat := 0x021f0000
def USB_ANALOG1_BASE : Nat := 0x020c81a0
def USB_ANALOG2_BASE : Nat := 0x020c8200
def USB_ANALOG_DIGPROG : Nat := 0x020c8260
def USBPHY1_BASE : Nat := 0x020c9000
def USBPHY2_BASE : Nat := 0x020ca000
def USB1_BASE : Nat := 0x02184000
def USB2_BASE : Nat := 0x02184200
def USDHC1_BASE : Nat := 0x02190000
def USDHC2_BASE : Nat := 0x02194000

/-- Modelled from the spec: the CCM clock-gating control-register addresses
(`CCM_CCGR1`, `CCM_CCGR2`, `CCM_CCGR6`) are defined in the package's `ccm.go`,
outside the sources under verification; the spec's ClockGateTable maps each
peripheral to a control-register address. Distinct registers get distinct
addresses. -/
def CCM_CCGR1 : Nat := 0x020c406c

/-- Modelled from the spec: see `CCM_CCGR1`. -/
def CCM_CCGR2 : Nat := 0x020c4070

/-- Modelled from the spec: see `CCM_CCGR1`. -/
def CCM_CCGR6 : Nat := 0x020c4080

/-- Modelled from the spec: gate-field bit positions are 0,2,4,…,30 (16
two-bit fields per 32-bit register), so field `CGn` sits at bit `2*n`. -/
def CCGRx_CG0 : Nat := 0

/-- Modelled from the spec: see `CCGRx_CG0`. -/
def CCGRx_CG1 : Nat := 2

/-- Modelled from the spec: see `CCGRx_CG0`. -/
def CCGRx_CG2 : Nat := 4

/-- Modelled from the spec: see `CCGRx_CG0`. -/
def CCGRx_CG3 : Nat := 6

/-- Modelled from the spec: see `CCGRx_CG0`. -/
def CCGRx_CG5 : Nat := 10

/-- Modelled from the spec: see `CCGRx_CG0`. -/
def CCGRx_CG6 : Nat := 12

/-- Modelled from the spec: see `CCGRx_CG0`. -/
def CCGRx_CG14 : Nat := 28

/-! ## Driver descriptor record types

Each record carries exactly the fields the `var` block assigns (driver
packages are external collaborators; their remaining fields and the injected
function references are out of scope). -/

structure arm.CPU

structure csu.CSU where
  Base : Nat
  CCGR : Nat
  CG : Nat

structure dcp.DCP where
  Base : Nat

structure gpio.GPIO where
  Index : Nat
  Base : Nat

structure i2c.I2C where
  Index : Nat
  Base : Nat
  CCGR : Nat
  CG : Nat

structure ocotp.OCOTP where
  Base : Nat
  BankBase : Nat
  CCGR : Nat
  CG : Nat

structure rngb.RNGB where
  Base : Nat

structure snvs.SNVS where
  Base : Nat

structure tzc380.TZASC where
  Base : Nat
  Bypass : Nat
  SecureBootLockReg : Nat
  SecureBootLockPos : Nat

structure uart.UART where
  Index : Nat
  Base : Nat

structure usb.USB where
  Index : Nat
  Base : Nat
  CCGR : Nat
  CG : Nat
  Analog : Nat
  PHY : Nat

structure usdhc.USDHC where
  Index : Nat
  Base : Nat
  CCGR : Nat
  CG : Nat

/-! ## Peripheral instances (the `var` block) -/

def ARM : arm.CPU := {}

def CSU : csu.CSU := { Base := CSU_BASE, CCGR := CCM_CCGR1, CG := CCGRx_CG14 }

def DCP : dcp.DCP := { Base := DCP_BASE }

def GPIO1 : gpio.GPIO := { Index := 1, Base := GPIO1_BASE }

def GPIO2 : gpio.GPIO := { Index := 2, Base := GPIO2_BASE }

def GPIO3 : gpio.GPIO := { Index := 3, Base := GPIO3_BASE }

def GPIO4 : gpio.GPIO := { Index := 4, Base := GPIO4_BASE }

def GPIO5 : gpio.GPIO := { Index := 5, Base := GPIO5_BASE }

def I2C1 : i2c.I2C := { Index := 1, Base := I2C1_BASE, CCGR := CCM_CCGR2, CG := CCGRx_CG3 }

def I2C2 : i2c.I2C := { Index := 2, Base := I2C2_BASE, CCGR := CCM_CCGR2, CG := CCGRx_CG5 }

def OCOTP : ocotp.OCOTP :=
  { Base := OCOTP_BASE, BankBase := OCOTP_BANK_BASE, CCGR := CCM_CCGR2, CG := CCGRx_CG6 }

def RNGB : rngb.RNGB := { Base := RNGB_BASE }

def SNVS : snvs.SNVS := { Base := SNVS_BASE }

def TZASC : tzc380.TZASC :=
  { Base := TZASC_BASE, Bypass := TZASC_BYPASS,
    SecureBootLockReg := IOMUXC_GPR_GPR1, SecureBootLockPos := GPR1_TZASC1_BOOT_LOCK }

def UART1 : uart.UART := { Index := 1, Base := UART1_BASE }

def UART2 : uart.UART := { Index := 2, Base := UART2_BASE }

def USB1 : usb.USB :=
  { Index := 1, Base := USB1_BASE, CCGR := CCM_CCGR6, CG := CCGRx_CG0,
    Analog := USB_ANALOG1_BASE, PHY := USBPHY1_BASE }

def USB2 : usb.USB :=
  { Index := 2, Base := USB2_BASE, CCGR := CCM_CCGR6, CG := CCGRx_CG0,
    Analog := USB_ANALOG2_BASE, PHY := USBPHY2_BASE }

def USDHC1 : usdhc.USDHC :=
  { Index := 1, Base := USDHC1_BASE, CCGR := CCM_CCGR6, CG := CCGRx_CG1 }

def USDHC2 : usdhc.USDHC :=
  { Index := 2, Base := USDHC2_BASE, CCGR := CCM_CCGR6, CG := CCGRx_CG2 }

/-! ## Hardware state and register reads -/

/-- Memory-mapped hardware state: a register file indexed by address. -/
def HWState := Nat → Nat

/-- A 32-bit memory-mapped register read (`reg.Read`). -/
def regRead (s : HWState) (addr : Nat) : Nat := s addr % 2 ^ 32

/-- The peripheral descriptors bundled together, mirroring the package-level
`var` block. -/
structure Peripherals where
  ARM : arm.CPU
  CSU : csu.CSU
  DCP : dcp.DCP
  GPIO1 : gpio.GPIO
  GPIO2 : gpio.GPIO
  GPIO3 : gpio.GPIO
  GPIO4 : gpio.GPIO
  GPIO5 : gpio.GPIO
  I2C1 : i2c.I2C
  I2C2 : i2c.I2C
  OCOTP : ocotp.OCOTP
  RNGB : rngb.RNGB
  SNVS : snvs.SNVS
  TZASC : tzc380.TZASC
  UART1 : uart.UART
  UART2 : uart.UART
  USB1 : usb.USB
  USB2 : usb.USB
  USDHC1 : usdhc.USDHC
  USDHC2 : usdhc.USDHC

/-- Embedding of bring-up: the `var` block's initializers are composite
literals built from constants only; the hardware state is threaded through so
that any memory-mapped access would show up as a use of it. -/
def mkPeripherals (s : HWState) : Peripherals × HWState :=
  ({ ARM := ARM, CSU := CSU, DCP := DCP,
     GPIO1 := GPIO1, GPIO2 := GPIO2, GPIO3 := GPIO3, GPIO4 := GPIO4, GPIO5 := GPIO5,
     I2C1 := I2C1, I2C2 := I2C2, OCOTP := OCOTP, RNGB := RNGB, SNVS := SNVS,
     TZASC := TZASC, UART1 := UART1, UART2 := UART2,
     USB1 := USB1, USB2 := USB2, USDHC1 := USDHC1, USDHC2 := USDHC2 }, s)

/-- The base addresses bound into the peripheral descriptor instances. -/
def peripheralBases : List Nat :=
  [CSU.Base, DCP.Base, GPIO1.Base, GPIO2.Base, GPIO3.Base, GPIO4.Base, GPIO5.Base,
   I2C1.Base, I2C2.Base, OCOTP.Base, RNGB.Base, SNVS.Base, TZASC.Base,
   UART1.Base, UART2.Base, USB1.Base, USB2.Base, USDHC1.Base, USDHC2.Base]

/-! ## SiliconVersion -/

/-- `SiliconVersion` reads `USB_ANALOG_DIGPROG` and decomposes it into
`(sv, family, revMajor, revMinor)`. -/
def SiliconVersion (s : HWState) : Nat × Nat × Nat × Nat :=
  let sv := regRead s USB_ANALOG_DIGPROG
  (sv, (sv >>> 16) &&& 0xff, (sv >>> 8) &&& 0xff, sv &&& 0xff)

/-! ## OCOTP fuse box and UniqueID -/

/-- Fuse environment: `fuse bank word` is `some v` when the fuse read
completes with 32-bit value `v`, `none` when it fails (busy/timeout). -/
structure OEnv where
  fuse : Nat → Nat → Option Nat

/-- OCOTP driver events observable on the hardware bus. -/
inductive OcotpEv where
  | gateOn
  | readFuse (bank word : Nat)
  deriving DecidableEq, Repr

/-- OCOTP driver state: whether the OCOTP clock gate is enabled, plus the
trace of driver events so far. -/
structure OSt where
  gateEnabled : Bool
  trace : List OcotpEv

/-- Modelled from the spec: `OCOTP.Init` is defined in the external `ocotp`
driver; it is idempotent, safe to call repeatedly, and performs the OCOTP
clock-gate enable. -/
def ocotpInit (s : OSt) : OSt :=
  { s with gateEnabled := true, trace := s.trace ++ [OcotpEv.gateOn] }

/-- Modelled from the spec: `OCOTP.Read bank word` is defined in the external
`ocotp` driver; a fuse read either completes with the 32-bit word or fails
with a busy/timeout condition, in which case the Go multiple-value return
carries a zero value alongside the error. The returned pair is
(value, failed). -/
def ocotpRead (env : OEnv) (s : OSt) (bank word : Nat) : (Nat × Bool) × OSt :=
  (match env.fuse bank word with
   | some v => (v % 2 ^ 32, false)
   | none => (0, true),
   { s with trace := s.trace ++ [OcotpEv.readFuse bank word] })

/-- `binary.LittleEndian.PutUint32`: the four bytes of a 32-bit value,
least-significant first. -/
def putUint32LE (v : Nat) : List Nat :=
  [v % 256, (v >>> 8) % 256, (v >>> 16) % 256, (v >>> 24) % 256]

/-- `UniqueID`: initializes the fuse box, reads bank 0 words 1 and 2
(discarding the per-read error results, as the source does), and assembles
the 8-byte identifier little-endian. Returns the bytes and the final driver
state. -/
def UniqueID (env : OEnv) (s : OSt) : List Nat × OSt :=
  let s := ocotpInit s
  let (r0, s) := ocotpRead env s 0 1
  let (r1, s) := ocotpRead env s 0 2
  (putUint32LE r0.1 ++ putUint32LE r1.1, s)

/-- Checks that, scanning a trace left to right starting from gate state `g`,
every fuse read happens while the gate is enabled. -/
def gateRespecting : List OcotpEv → Bool → Bool
  | [], _ => true
  | OcotpEv.gateOn :: rest, _ => gateRespecting rest true
  | OcotpEv.readFuse _ _ :: rest, g => g && gateRespecting rest g

/-- A fuse environment in which every read fails (busy/timeout). -/
def timeoutEnv : OEnv := ⟨fun _ _ => none⟩

/-- A fuse environment in which every fuse genuinely reads as zero. -/
def zeroEnv : OEnv := ⟨fun _ _ => some 0⟩

/-! ## Model -/

/-- Modelled from the spec: the chip-family codes `IMX6UL`/`IMX6ULL` and the
`Family` value consumed by `Model` are resolved by bring-up code outside the
sources under verification; the spec treats the family as an opaque input and
only requires the two codes to be distinct. -/
def IMX6UL : Nat := 0x64

/-- Modelled from the spec: see `IMX6UL`. -/
def IMX6ULL : Nat := 0x65

/-- `Model` maps the chip-family value to a display name via the source's
switch: the `IMX6UL` case, the `IMX6ULL` case, and a default. -/
def Model (family : Nat) : String :=
  if family = IMX6UL then "i.MX6UL"
  else if family = IMX6ULL then "i.MX6ULL"
  else "unknown"

/-! ## HAB / SecurityState -/

/-- Secure-storage (SNVS) hardware state: the hardware-latched availability
flag. -/
structure SecState where
  available : Bool

/-- Modelled from the spec: `SNVS.Available` is defined in the external
`snvs` driver; it re-reads the hardware-latched availability flag on every
call, with no caching and no side effects. Returns the flag and the
(unchanged) state. -/
def snvsAvailable (s : SecState) : Bool × SecState := (s.available, s)

/-- `HAB` returns `SNVS.Available()`. -/
def HAB (s : SecState) : Bool × SecState := snvsAvailable s

/-- Flipping the latched flag, for expressing the no-caching property. -/
def toggleSec (s : SecState) : SecState := ⟨!s.available⟩

/-! ## Clock-gate enable -/

/-- Modelled from the spec: the clock-gate enable primitive (consumed by the
drivers, defined outside the sources under verification) reads the 32-bit
control register value `r`, clears exactly the 2-bit field at bit position
`p`, sets it to the enabled encoding (both bits set), and writes the result
back. -/
def gateEnable (r p : Nat) : Nat :=
  ((r % 2 ^ 32) &&& ((2 ^ 32 - 1) ^^^ (3 <<< p))) ||| (3 <<< p)

/-! # Theorems -/

/-- C2: for every 32-bit value `v` read from `USB_ANALOG_DIGPROG`,
`SiliconVersion` returns the raw value, family = bits 16–23, majorRevision =
bits 8–15, minorRevision = bits 0–7; and the (family, major, minor) triple is
independent of bits 24–31: two register states whose values agree below bit
24 yield the same triple. -/
theorem siliconVersion_decompose (s t : HWState) (v w : Nat)
    (hv : v < 2 ^ 32) (hw : w < 2 ^ 32)
    (hs : s USB_ANALOG_DIGPROG = v) (ht : t USB_ANALOG_DIGPROG = w)
    (hlow : v % 2 ^ 24 = w % 2 ^ 24) :
    SiliconVersion s = (v, v / 2 ^ 16 % 2 ^ 8, v / 2 ^ 8 % 2 ^ 8, v % 2 ^ 8) ∧
    (SiliconVersion s).2 = (SiliconVersion t).2 := by
  have h255 : ∀ x : Nat, x &&& 0xff = x % 2 ^ 8 := fun x =>
    Nat.and_pow_two_sub_one_eq_mod x 8
  have hsv : SiliconVersion s = (v, v / 2 ^ 16 % 2 ^ 8, v / 2 ^ 8 % 2 ^ 8, v % 2 ^ 8) := by
    simp only [SiliconVersion, regRead, hs, Nat.mod_eq_of_lt hv, h255,
      Nat.shiftRight_eq_div_pow]
  have htv : SiliconVersion t = (w, w / 2 ^ 16 % 2 ^ 8, w / 2 ^ 8 % 2 ^ 8, w % 2 ^ 8) := by
    simp only [SiliconVersion, regRead, ht, Nat.mod_eq_of_lt hw, h255,
      Nat.shiftRight_eq_div_pow]
  refine ⟨hsv, ?_⟩
  rw [hsv, htv]
  refine Prod.ext ?_ (Prod.ext ?_ ?_) <;> simp <;> omega

/-- C2 witness: the register value `0x00630105` decomposes into family
`0x63`, majorRevision `0x01`, minorRevision `0x05`, and the triple agrees
with the one obtained when the top byte is `0xAB` instead. -/
theorem siliconVersion_decompose_witness :
    SiliconVersion (fun _ => 0x00630105) = (0x00630105, 0x63, 0x01, 0x05) ∧
    (SiliconVersion (fun _ => 0x00630105)).2 = (SiliconVersion (fun _ => 0xAB630105)).2 := by
  have h := siliconVersion_decompose (fun _ => 0x00630105) (fun _ => 0xAB630105)
    0x00630105 0xAB630105 (by decide) (by decide) rfl rfl (by decide)
  exact ⟨h.1, h.2⟩

/-- C3: when the fuse reads succeed with 32-bit words `w1` (bank 0 word 1)
and `w2` (bank 0 word 2), `UniqueID` returns the 8 bytes of the identifier
little-endian: bytes 0–3 are the bytes of `w1` least-significant first,
bytes 4–7 those of `w2`. -/
theorem uniqueID_littleEndian (env : OEnv) (s : OSt) (w1 w2 : Nat)
    (h1 : w1 < 2 ^ 32) (h2 : w2 < 2 ^ 32)
    (e1 : env.fuse 0 1 = some w1) (e2 : env.fuse 0 2 = some w2) :
    (UniqueID env s).1 =
      [w1 % 256, w1 / 2 ^ 8 % 256, w1 / 2 ^ 16 % 256, w1 / 2 ^ 24 % 256,
       w2 % 256, w2 / 2 ^ 8 % 256, w2 / 2 ^ 16 % 256, w2 / 2 ^ 24 % 256] := by
  simp only [UniqueID, ocotpRead, ocotpInit, e1, e2, putUint32LE,
    Nat.mod_eq_of_lt h1, Nat.mod_eq_of_lt h2, Nat.shiftRight_eq_div_pow]
  rfl

/-- C3 witness: fuse words `0x12345678` and `0x9ABCDEF0` yield the identifier
bytes `[0x78, 0x56, 0x34, 0x12, 0xF0, 0xDE, 0xBC, 0x9A]`. -/
theorem uniqueID_littleEndian_witness :
    (UniqueID ⟨fun _ w => if w = 1 then some 0x12345678 else some 0x9ABCDEF0⟩
        ⟨false, []⟩).1 =
      [0x78, 0x56, 0x34, 0x12, 0xF0, 0xDE, 0xBC, 0x9A] := by
  have h := uniqueID_littleEndian
    ⟨fun _ w => if w = 1 then some 0x12345678 else some 0x9ABCDEF0⟩
    ⟨false, []⟩ 0x12345678 0x9ABCDEF0 (by decide) (by decide) rfl rfl
  simpa using h

/-- C1 (code bug): when both fuse reads fail (busy/timeout), each read
reports the failure, yet `UniqueID` returns the all-zero 8-byte identifier —
byte-for-byte identical to the identifier of a device whose fuses genuinely
read zero — so the failure is not surfaced to the caller in any way. -/
theorem uniqueID_discards_failure :
    ((ocotpRead timeoutEnv ⟨true, []⟩ 0 1).1.2 = true ∧
      (ocotpRead timeoutEnv ⟨true, []⟩ 0 2).1.2 = true) ∧
    (UniqueID timeoutEnv ⟨false, []⟩).1 = [0, 0, 0, 0, 0, 0, 0, 0] ∧
    (UniqueID timeoutEnv ⟨false, []⟩).1 = (UniqueID zeroEnv ⟨false, []⟩).1 := by
  exact ⟨⟨rfl, rfl⟩, rfl, rfl⟩

/-- C4: `Model` is a total function of the family value: it returns
"i.MX6UL" on the UL code, "i.MX6ULL" on the ULL code, and the fixed sentinel
"unknown" on every other value. -/
theorem model_total (f : Nat) :
    Model IMX6UL = "i.MX6UL" ∧ Model IMX6ULL = "i.MX6ULL" ∧
    (f ≠ IMX6UL → f ≠ IMX6ULL → Model f = "unknown") := by
  refine ⟨rfl, rfl, fun h1 h2 => ?_⟩
  simp [Model, h1, h2]

/-- C4 witness: the unrecognized family value `0x99` maps to "unknown", and
the UL code maps to "i.MX6UL". -/
theorem model_total_witness :
    Model 0x99 = "unknown" ∧ Model IMX6UL = "i.MX6UL" :=
  ⟨(model_total 0x99).2.2 (by decide) (by decide), (model_total 0x99).1⟩

/-- C5: `HAB` returns exactly the current secure-storage availability flag,
leaves the state unchanged (no side effects), and is not cached: after the
flag is toggled, a second call returns the other value. -/
theorem hab_mirrors_flag (s : SecState) :
    (HAB s).1 = s.available ∧ (HAB s).2 = s ∧
    (HAB (toggleSec s)).1 = !(HAB s).1 := by
  exact ⟨rfl, rfl, rfl⟩

/-- C6: the clock-gate enable on register value `r` at a valid gate position
`p` (even, at most 30) changes no bit of `r` outside the 2-bit field
`[p, p+1]`, and leaves the field itself set to the enabled encoding. -/
theorem gateEnable_frame (r p : Nat) (hp2 : p % 2 = 0) (hp : p ≤ 30) :
    (∀ i, i < 32 → i ≠ p → i ≠ p + 1 →
      (gateEnable r p).testBit i = r.testBit i) ∧
    (gateEnable r p).testBit p = true ∧ (gateEnable r p).testBit (p + 1) = true := by
  have h3 : ∀ k, Nat.testBit 3 k = decide (k < 2) := fun k =>
    Nat.testBit_two_pow_sub_one 2 k
  refine ⟨fun i hi h1 h2 => ?_, ?_, ?_⟩
  · have hshift : Nat.testBit (3 <<< p) i = false := by
      rw [Nat.testBit_shiftLeft, h3]
      by_cases hpi : p ≤ i
      · have hfar : ¬ (i - p < 2) := by omega
        simp [hpi, hfar]
      · simp [hpi]
    simp only [gateEnable, Nat.testBit_lor, Nat.testBit_land, Nat.testBit_xor,
      Nat.testBit_mod_two_pow, Nat.testBit_two_pow_sub_one, hshift]
    simp [hi]
  · have hshift : Nat.testBit (3 <<< p) p = true := by
      rw [Nat.testBit_shiftLeft, h3]
      simp
    simp [gateEnable, Nat.testBit_lor, hshift]
  · have hshift : Nat.testBit (3 <<< p) (p + 1) = true := by
      rw [Nat.testBit_shiftLeft, h3]
      simp
    simp [gateEnable, Nat.testBit_lor, hshift]

/-- C6 witness: enabling the gate at position 6 on register value
`0x12345678` leaves bit 3 unchanged and sets bits 6 and 7. -/
theorem gateEnable_frame_witness :
    (gateEnable 0x12345678 6).testBit 3 = (0x12345678 : Nat).testBit 3 ∧
    (gateEnable 0x12345678 6).testBit 6 = true := by
  have h := gateEnable_frame 0x12345678 6 (by decide) (by decide)
  exact ⟨h.1 3 (by decide) (by decide) (by decide), h.2.1⟩

/-- C7: constructing the peripheral descriptor instances at bring-up touches
no hardware: the hardware state threaded through the construction comes back
unchanged, and the descriptors produced do not depend on that state. -/
theorem mkPeripherals_no_hw_access (s t : HWState) :
    (mkPeripherals s).2 = s ∧ (mkPeripherals s).1 = (mkPeripherals t).1 :=
  ⟨rfl, rfl⟩

/-- C8: `UniqueID`, run from any initial gate state and fuse environment,
performs exactly the event sequence gate-enable, read bank 0 word 1, read
bank 0 word 2 — the gate enable (via `OCOTP.Init`) comes strictly before
every fuse read, so no fuse register is accessed with the OCOTP clock gate
disabled; and `OCOTP.Init` is idempotent on the gate state and enables the
gate. -/
theorem uniqueID_init_first (env : OEnv) (g : Bool) (s : OSt) :
    (UniqueID env ⟨g, []⟩).2.trace =
      [OcotpEv.gateOn, OcotpEv.readFuse 0 1, OcotpEv.readFuse 0 2] ∧
    gateRespecting (UniqueID env ⟨g, []⟩).2.trace g = true ∧
    (ocotpInit (ocotpInit s)).gateEnabled = (ocotpInit s).gateEnabled ∧
    (ocotpInit s).gateEnabled = true := by
  exact ⟨rfl, rfl, rfl, rfl⟩

/-- C9: the base addresses bound into the peripheral descriptor instances
are pairwise distinct. -/
theorem peripheralBases_nodup : peripheralBases.Nodup := by
  decide

/-- C10: the two USB controller descriptors reference the identical clock
gate: both carry control register `CCM_CCGR6` and gate field `CCGRx_CG0`, so
their (CCGR, CG) pairs are equal. -/
theorem usb_shared_clock_gate :
    USB1.CCGR = USB2.CCGR ∧ USB1.CG = USB2.CG ∧
    USB1.CCGR = CCM_CCGR6 ∧ USB1.CG = CCGRx_CG0 :=
  ⟨rfl, rfl, rfl, rfl⟩
